import Mathlib

/-!
Verification development for the Disaster-Analyzer hazard-assessment engine
(`src/app.py`).  The Python source is shallowly embedded: floating-point
numbers are modelled as rationals (`ℚ`, exact arithmetic; the decision
thresholds 4.5 / 6.5 / 7.0 / 50 / 20 / 100 are all exactly representable),
the real-valued haversine formula is modelled over `ℝ`, network fetches are
modelled as explicit `Except String` values supplied through an environment
record, and Python dictionaries holding either a payload or an `"error"` key
are modelled as `Except String` payloads.  Python's `x or d` idiom applied to
numbers (`None`/`0.0` are falsy) is modelled by `pyOrQ`, and applied to the
never-empty severity strings by `Option.getD`.
-/

/-- The ordered severity labels `"low" / "moderate" / "high"` used throughout
`app.py`. -/
inductive Severity where
  | low
  | moderate
  | high
deriving DecidableEq, Repr

/-- The six hazard categories named by the specification. -/
inductive HazardKind where
  | earthquake
  | snowfall
  | hurricane
  | tsunami
  | wildfire
  | flood
deriving DecidableEq, Repr

/-- Python `x or d` on an optional number: `None` and `0.0` are falsy and give
the default `d`; any other number is returned unchanged.  Used for
`props.get("mag") or 0`, `curw.get("wind_kph") or 0`, `t or -999`, `v or 0.0`
in `app.py`. -/
def pyOrQ (x : Option ℚ) (d : ℚ) : ℚ :=
  match x with
  | none => d
  | some v => if v = 0 then d else v

/-- Result of a successful `check_earthquake` call (`app.py` lines 92-119).
The display-only `recent` and `raw` fields are omitted; `count` is
`len(events)`. -/
structure QuakeInfo where
  possible : Bool
  magnitude_estimate : ℚ
  count : ℕ
deriving DecidableEq, Repr

/-- `check_earthquake` (`app.py` lines 92-119), with the fetched event list
abstracted to the list of per-event `properties.mag` values (`none` models a
JSON `null` magnitude).  `max_mag` starts at `0` and each event's magnitude is
coerced by `mag = props.get("mag") or 0`; the running maximum is updated only
when strictly greater (`if mag > max_mag`). -/
def check_earthquake (mags : List (Option ℚ)) : QuakeInfo :=
  let max_mag := mags.foldl (fun acc m =>
    let v := pyOrQ m 0
    if v > acc then v else acc) 0
  { possible := decide (max_mag ≥ 4.5)
    magnitude_estimate := max_mag
    count := mags.length }

theorem foldl_if_gt_eq_foldl_max (l : List ℚ) (a : ℚ) :
    l.foldl (fun acc v => if v > acc then v else acc) a = l.foldl max a := by
  induction l generalizing a with
  | nil => rfl
  | cons x xs ih =>
    simp only [List.foldl_cons]
    have hx : (if x > a then x else a) = max a x := by
      rcases le_or_lt x a with h | h
      · rw [if_neg (not_lt.mpr h), max_eq_left h]
      · rw [if_pos h, max_eq_right h.le]
    rw [hx, ih]

theorem le_foldl_max (l : List ℚ) (a : ℚ) : a ≤ l.foldl max a := by
  induction l generalizing a with
  | nil => exact le_refl a
  | cons x xs ih => exact le_trans (le_max_left a x) (ih (max a x))

theorem foldl_max_nonpos (l : List ℚ) (a : ℚ)
    (h : ∀ v ∈ l, v ≤ a) : l.foldl max a = a := by
  induction l generalizing a with
  | nil => rfl
  | cons x xs ih =>
    simp only [List.foldl_cons]
    rw [max_eq_left (h x (List.mem_cons_self x xs)), ih]
    intro v hv
    exact h v (List.mem_cons_of_mem x hv)

/-- C10: for every successful earthquake fetch, each event's missing (`null`)
magnitude is coerced to `0`, the reported `magnitude_estimate` is the maximum
of the coerced magnitudes starting from `0` (hence always `≥ 0`; a feed with
only null- or negative-magnitude events yields `0`), and the `possible` flag
is set exactly when `magnitude_estimate ≥ 4.5`. -/
theorem check_earthquake_magnitude_floor (mags : List (Option ℚ)) :
    (check_earthquake mags).magnitude_estimate
        = (mags.map (fun m => pyOrQ m 0)).foldl max 0
      ∧ 0 ≤ (check_earthquake mags).magnitude_estimate
      ∧ ((check_earthquake mags).possible = true
          ↔ 4.5 ≤ (check_earthquake mags).magnitude_estimate)
      ∧ ((∀ m ∈ mags, m = none ∨ ∃ v, m = some v ∧ v < 0) →
          (check_earthquake mags).magnitude_estimate = 0) := by
  have hfold : (check_earthquake mags).magnitude_estimate
      = (mags.map (fun m => pyOrQ m 0)).foldl max 0 := by
    simp only [check_earthquake]
    rw [← List.foldl_map (fun m => pyOrQ m 0)
      (fun acc v => if v > acc then v else acc)]
    exact foldl_if_gt_eq_foldl_max _ 0
  refine ⟨hfold, ?_, ?_, ?_⟩
  · rw [hfold]; exact le_foldl_max _ 0
  · simp [check_earthquake, ge_iff_le]
  · intro h
    rw [hfold]
    apply foldl_max_nonpos
    intro v hv
    rcases List.mem_map.mp hv with ⟨m, hm, rfl⟩
    rcases h m hm with hnone | ⟨w, hw, hwneg⟩
    · rw [hnone]; simp [pyOrQ]
    · rw [hw]
      simp only [pyOrQ]
      split
      · exact le_refl 0
      · exact hwneg.le

/-- Concrete instance of `check_earthquake_magnitude_floor`: a feed holding one
null magnitude and one negative magnitude reports `magnitude_estimate = 0`. -/
theorem check_earthquake_magnitude_floor_witness :
    (check_earthquake [none, some (-3)]).magnitude_estimate = 0 :=
  (check_earthquake_magnitude_floor [none, some (-3)]).2.2.2 (by
    intro m hm
    simp only [List.mem_cons, List.not_mem_nil, or_false] at hm
    rcases hm with rfl | rfl
    · exact Or.inl rfl
    · exact Or.inr ⟨-3, rfl, by norm_num⟩)

/-- Result of a successful `check_tsunami` call (`app.py` lines 228-274).
The display-only `recent_quakes` and `quake_raw` fields are omitted. -/
structure TsuInfo where
  possible : Bool
  max_quake_magnitude : ℚ
  quake_count : ℕ
  min_coast_distance_km : Option ℚ
  severity : Severity
deriving DecidableEq, Repr

/-- The coastline test of `app.py` line 263:
`min_coast_dist is None or (min_coast_dist is not None and min_coast_dist <= 100)`. -/
def coastNear (coast : Option ℚ) : Bool :=
  match coast with
  | none => true
  | some d => decide (d ≤ 100)

/-- `check_tsunami` (`app.py` lines 228-274).  The inner earthquake fetch is
abstracted to its `Except` result (`quake`); its error is wrapped as
`"quake feed error: ..."` (line 231).  The coastline sub-query of lines
235-260 is abstracted to its outcome `coast` (`none` models both "no coast
points returned" and "Overpass query failed").  `θ` is `quake_mag_threshold`
(default `6.5` at the call site in `collect_signals_for_location`). -/
def check_tsunami (quake : Except String QuakeInfo) (coast : Option ℚ)
    (θ : ℚ) : Except String TsuInfo :=
  match quake with
  | .error e => .error ("quake feed error: " ++ e)
  | .ok q =>
    let max_mag := q.magnitude_estimate
    if max_mag ≥ θ ∧ coastNear coast = true then
      .ok { possible := true
            max_quake_magnitude := max_mag
            quake_count := q.count
            min_coast_distance_km := coast
            severity := if max_mag ≥ 7 then .high else .moderate }
    else if max_mag ≥ θ then
      .ok { possible := true
            max_quake_magnitude := max_mag
            quake_count := q.count
            min_coast_distance_km := coast
            severity := .moderate }
    else
      .ok { possible := false
            max_quake_magnitude := max_mag
            quake_count := q.count
            min_coast_distance_km := coast
            severity := .low }

/-- C1 counterexample: with maximum magnitude `7.2` (≥ 7.0) and a *measured*
coastline distance of `150` km, the code returns `possible = true` but
severity `moderate`, not `high` — so the severity value does depend on the
measured coastline distance, contrary to the claim. -/
theorem check_tsunami_severity_depends_on_coast :
    check_tsunami (.ok { possible := true, magnitude_estimate := 7.2, count := 1 })
        (some 150) (6.5 : ℚ)
      = .ok { possible := true, max_quake_magnitude := 7.2, quake_count := 1,
              min_coast_distance_km := some 150, severity := .moderate } := by
  have hc : coastNear (some 150) = false := by
    simp only [coastNear, decide_eq_false_iff_not]
    norm_num
  simp only [check_tsunami, hc]
  rw [if_neg (by simp), if_pos (by norm_num)]

/-- C1 (amended): `possible = false` with severity `low` exactly when the
maximum magnitude is below the threshold; otherwise `possible = true` and the
severity is `high` iff the magnitude is ≥ 7.0 *and* the coastline distance is
unknown or ≤ 100 km (a measured distance above 100 km demotes the severity to
`moderate` even for magnitude ≥ 7.0); an unknown coastline distance is treated
as "assume coastal" (`coastNear none = true`). -/
theorem check_tsunami_decision (q : QuakeInfo) (coast : Option ℚ) (θ : ℚ) :
    check_tsunami (.ok q) coast θ
        = .ok { possible := decide (θ ≤ q.magnitude_estimate)
                max_quake_magnitude := q.magnitude_estimate
                quake_count := q.count
                min_coast_distance_km := coast
                severity :=
                  if θ ≤ q.magnitude_estimate then
                    (if 7 ≤ q.magnitude_estimate ∧ coastNear coast = true
                     then .high else .moderate)
                  else .low }
      ∧ coastNear none = true := by
  constructor
  · simp only [check_tsunami, ge_iff_le]
    by_cases hθ : θ ≤ q.magnitude_estimate
    · by_cases hc : coastNear coast = true
      · rw [if_pos ⟨hθ, hc⟩, if_pos hθ]
        by_cases h7 : (7 : ℚ) ≤ q.magnitude_estimate
        · simp [hθ, hc, h7]
        · simp [hθ, hc, h7]
      · rw [if_neg (by intro h; exact hc h.2), if_pos hθ]
        simp [hθ, hc]
    · rw [if_neg (by intro h; exact hθ h.1), if_neg hθ]
      simp [hθ]
  · rfl

/-- `haversine_km` (`app.py` lines 69-75): great-circle distance with Earth
radius 6371 km; `radians(x) = x * π / 180` as in `math.radians`. -/
noncomputable def haversine_km (lat1 lon1 lat2 lon2 : ℝ) : ℝ :=
  let lon1r := lon1 * Real.pi / 180
  let lat1r := lat1 * Real.pi / 180
  let lon2r := lon2 * Real.pi / 180
  let lat2r := lat2 * Real.pi / 180
  let dlon := lon2r - lon1r
  let dlat := lat2r - lat1r
  let a := Real.sin (dlat / 2) ^ 2
    + Real.cos lat1r * Real.cos lat2r * Real.sin (dlon / 2) ^ 2
  let c := 2 * Real.arcsin (Real.sqrt a)
  6371 * c

/-- C9: the haversine distance is symmetric in its two coordinate pairs and
vanishes on identical points. -/
theorem haversine_km_symm_and_self (lat1 lon1 lat2 lon2 : ℝ) :
    haversine_km lat1 lon1 lat2 lon2 = haversine_km lat2 lon2 lat1 lon1
      ∧ haversine_km lat1 lon1 lat1 lon1 = 0 := by
  constructor
  · have hsin : ∀ x y : ℝ, Real.sin ((x - y) / 2) ^ 2
        = Real.sin ((y - x) / 2) ^ 2 := by
      intro x y
      rw [show (x - y) / 2 = -((y - x) / 2) by ring, Real.sin_neg, neg_sq]
    simp only [haversine_km]
    rw [hsin (lat2 * Real.pi / 180) (lat1 * Real.pi / 180),
      hsin (lon2 * Real.pi / 180) (lon1 * Real.pi / 180),
      mul_comm (Real.cos (lat1 * Real.pi / 180)) (Real.cos (lat2 * Real.pi / 180))]
  · simp [haversine_km]

/-- Result of `get_weather` (`app.py` lines 121-129) when the request itself
succeeds: the `current_weather` sub-fields may individually be missing
(`None`), hence the `Option` fields.  The display-only `raw` field is
omitted. -/
structure Weather where
  temperature_c : Option ℚ
  wind_kph : Option ℚ
deriving DecidableEq, Repr

/-- Python `result.get(key)` on a `get_weather`-style dict: on an error dict
the payload key is absent and `.get` returns `None`. -/
def weatherGet (r : Except String Weather) (f : Weather → Option ℚ) : Option ℚ :=
  match r with
  | .error _ => none
  | .ok w => f w

/-- The two daily series fetched by `check_wildfire` from the historical feed
(`app.py` lines 278-288): `precipitation_sum` and `temperature_2m_max`, each
entry possibly `null`. -/
structure WfHist where
  precipitation_sum : List (Option ℚ)
  temperature_2m_max : List (Option ℚ)
deriving DecidableEq, Repr

/-- Result of a successful `check_wildfire` call (`app.py` lines 276-300).
The display-only `raw` field is omitted. -/
structure WfInfo where
  precip_last7_mm : ℚ
  max_temp_last7_c : Option ℚ
  wind_kph_now : ℚ
  temp_now_c : Option ℚ
  severity : Severity
deriving DecidableEq, Repr

/-- `check_wildfire` (`app.py` lines 276-300).  The historical-feed request is
abstracted to `hist` (an exception inside the `try` yields the error dict);
the inner `get_weather` call is abstracted to `curw` — note that `get_weather`
catches its own exceptions and returns an error *dict*, from which
`curw.get("wind_kph")` reads `None`, coerced to `0` by the `or 0` idiom
(line 290), so a failed live-weather fetch never raises here. -/
def check_wildfire (hist : Except String WfHist) (curw : Except String Weather) :
    Except String WfInfo :=
  match hist with
  | .error e => .error e
  | .ok h =>
    let precip_last7 := (h.precipitation_sum.map (fun p => pyOrQ p 0)).sum
    let temps := h.temperature_2m_max.map (fun t => pyOrQ t (-999))
    let max_temp_last7 : Option ℚ :=
      match temps with
      | [] => none
      | x :: xs => some (xs.foldl max x)
    let wind_kph := pyOrQ (weatherGet curw Weather.wind_kph) 0
    let temp_now := weatherGet curw Weather.temperature_c
    let hotEnough : Bool :=
      match max_temp_last7 with
      | none => false
      | some t => decide (t ≥ 30)
    let sev : Severity :=
      if precip_last7 < 5 ∧ hotEnough = true ∧ wind_kph ≥ 30 then .high
      else if precip_last7 < 10 ∧ wind_kph ≥ 20 then .moderate
      else .low
    .ok { precip_last7_mm := precip_last7
          max_temp_last7_c := max_temp_last7
          wind_kph_now := wind_kph
          temp_now_c := temp_now
          severity := sev }

/-- C4 counterexample: with a healthy historical feed (1 mm recent rain, max
temperature 35 °C) but a *failed* live-weather fetch, `check_wildfire` does
not return an error result — it classifies anyway, treating the wind speed as
`0` and yielding severity `low`. -/
theorem check_wildfire_no_dependency_error :
    check_wildfire (.ok { precipitation_sum := [some 1],
                          temperature_2m_max := [some 35] })
        (.error "weather timeout")
      = .ok { precip_last7_mm := 1, max_temp_last7_c := some 35,
              wind_kph_now := 0, temp_now_c := none, severity := .low } := by
  simp only [check_wildfire, weatherGet, pyOrQ, List.map_cons, List.map_nil,
    List.sum_cons, List.sum_nil, List.foldl_nil]
  norm_num

/-- C4 (amended): `check_wildfire` yields an error result only when its *own*
historical feed fails; a failed live-weather fetch is not treated as a missing
prerequisite — the wind speed is coerced to `0`, the current temperature to
`None`, and classification proceeds, necessarily producing severity `low`
(both non-low branches require wind ≥ 20 kph). -/
theorem check_wildfire_weather_error_classifies (h : WfHist) (e e' : String)
    (curw : Except String Weather) :
    check_wildfire (.error e') curw = .error e'
      ∧ ∃ r : WfInfo,
          check_wildfire (.ok h) (.error e) = .ok r
            ∧ r.wind_kph_now = 0 ∧ r.temp_now_c = none ∧ r.severity = .low := by
  constructor
  · rfl
  · refine ⟨_, rfl, rfl, rfl, ?_⟩
    simp only [check_wildfire, weatherGet, pyOrQ]
    rw [if_neg (by rintro ⟨-, -, hw⟩; norm_num at hw),
      if_neg (by rintro ⟨-, hw⟩; norm_num at hw)]

/-- Python `l[-n:]`: the last `n` elements of a list (the whole list when it
is shorter than `n`). -/
def takeLastQ (n : ℕ) (l : List ℚ) : List ℚ :=
  l.drop (l.length - n)

/-- Result of a successful `check_flood` call (`app.py` lines 347-383);
the three `evidence` entries are inlined as fields.  `precip_last7_mm` is
`None` when the historical request failed (inner `try` at lines 362-372). -/
structure FloodInfo where
  possible : Bool
  severity : Severity
  forecast_24h_mm : ℚ
  recent_24h_mm_approx : ℚ
  precip_last7_mm : Option ℚ
deriving DecidableEq, Repr

/-- `check_flood` (`app.py` lines 347-383).  The hourly forecast request is
abstracted to its `precipitation` series `precip_hours` (a failure of that
outer request raises and yields the error dict, which no claim concerns, so
only the successful path is embedded); the historical request is abstracted to
`hist`, whose failure sets `sum7 = None`. -/
def check_flood (precip_hours : List ℚ)
    (hist : Except String (List (Option ℚ))) : FloodInfo :=
  let forecast_24h : ℚ := if precip_hours = [] then 0 else (precip_hours.take 24).sum
  let recent_24h : ℚ := if precip_hours = [] then 0 else (takeLastQ 24 precip_hours).sum
  let sum7 : Option ℚ :=
    match hist with
    | .error _ => none
    | .ok l => some ((l.map (fun v => pyOrQ v 0)).sum)
  let hist100 : Bool :=
    match sum7 with
    | none => false
    | some s => decide (s ≥ 100)
  let severity : Severity :=
    if forecast_24h ≥ 50 ∨ recent_24h ≥ 50 then .high
    else if (forecast_24h ≥ 20 ∨ recent_24h ≥ 20) ∨ hist100 = true then .moderate
    else .low
  { possible := decide (severity ≠ .low)
    severity := severity
    forecast_24h_mm := forecast_24h
    recent_24h_mm_approx := recent_24h
    precip_last7_mm := sum7 }

/-- C5: the flood severity is `high` iff the 24-hour forecast sum or the
trailing-24-hour sum reaches 50 mm; `moderate` iff neither reaches 50 mm but
one reaches 20 mm or the 7-day historical sum is available and reaches
100 mm; `low` otherwise; and `possible` holds exactly when the severity is
not `low`. -/
theorem check_flood_thresholds (precip_hours : List ℚ)
    (hist : Except String (List (Option ℚ))) :
    ((check_flood precip_hours hist).severity = .high ↔
        50 ≤ (check_flood precip_hours hist).forecast_24h_mm
          ∨ 50 ≤ (check_flood precip_hours hist).recent_24h_mm_approx)
      ∧ ((check_flood precip_hours hist).severity = .moderate ↔
          ¬(50 ≤ (check_flood precip_hours hist).forecast_24h_mm
              ∨ 50 ≤ (check_flood precip_hours hist).recent_24h_mm_approx)
            ∧ (20 ≤ (check_flood precip_hours hist).forecast_24h_mm
              ∨ 20 ≤ (check_flood precip_hours hist).recent_24h_mm_approx
              ∨ ∃ s, (check_flood precip_hours hist).precip_last7_mm = some s
                  ∧ 100 ≤ s))
      ∧ ((check_flood precip_hours hist).possible = true ↔
          (check_flood precip_hours hist).severity ≠ .low) := by
  rcases hist with e | l
  all_goals
    simp only [check_flood, ge_iff_le]
    by_cases h50 : 50 ≤ (if precip_hours = [] then (0:ℚ) else (precip_hours.take 24).sum)
        ∨ 50 ≤ (if precip_hours = [] then (0:ℚ) else (takeLastQ 24 precip_hours).sum)
  · simp [h50]
  · by_cases h20 : 20 ≤ (if precip_hours = [] then (0:ℚ) else (precip_hours.take 24).sum)
        ∨ 20 ≤ (if precip_hours = [] then (0:ℚ) else (takeLastQ 24 precip_hours).sum)
    · simp [h50, h20]
    · simp [h50, h20]
  · simp [h50]
  · by_cases h20 : 20 ≤ (if precip_hours = [] then (0:ℚ) else (precip_hours.take 24).sum)
        ∨ 20 ≤ (if precip_hours = [] then (0:ℚ) else (takeLastQ 24 precip_hours).sum)
    · simp [h50, h20]
      try tauto
    · by_cases h100 : 100 ≤ (l.map (fun v => pyOrQ v 0)).sum
      · simp [h50, h20, h100]
      · simp [h50, h20, h100]

/-- Result of a successful `check_snowfall` call (`app.py` lines 184-210);
display-only `raw` omitted.  Its internal logic is not the subject of any
claim, so the aggregator receives the result abstractly. -/
structure SnowInfo where
  possible : Bool
  max_snowfall : ℚ
  severity : Severity
deriving DecidableEq, Repr

/-- Result of a successful `check_hurricane` call (`app.py` lines 212-226);
display-only `raw` omitted. -/
structure HurrInfo where
  possible : Bool
  max_wind_kph : ℚ
  severity : Severity
deriving DecidableEq, Repr

/-- A nearby resource as produced by `find_hospitals` / `find_schools`
(`app.py` lines 131-182): only the fields read by the action-plan generator
(`name`, `distance_km`) are kept; `lat`/`lon`/`type`/`directions_url` are
display-only. -/
structure Resource where
  name : String
  distance_km : ℚ
deriving DecidableEq

/-- Python `s.split(",")` on the underlying characters: splitting an empty
string gives `[""]`. -/
def splitComma : List Char → List (List Char)
  | [] => [[]]
  | c :: cs =>
    let r := splitComma cs
    if c = ',' then [] :: r
    else
      match r with
      | [] => [[c]]
      | h :: t => (c :: h) :: t

/-- Python `s.strip()`: drop leading and trailing whitespace. -/
def stripChars (cs : List Char) : List Char :=
  ((cs.dropWhile (fun c => c.isWhitespace)).reverse.dropWhile
    (fun c => c.isWhitespace)).reverse

/-- Split a character list at the first character satisfying `p`, or `none`
when no character does. -/
def splitOnceBy (p : Char → Bool) : List Char → Option (List Char × List Char)
  | [] => none
  | c :: cs =>
    if p c then some ([], cs)
    else
      match splitOnceBy p cs with
      | none => none
      | some (a, b) => some (c :: a, b)

/-- Decimal value of a digit string. -/
def digitsVal (cs : List Char) : ℕ :=
  cs.foldl (fun a c => 10 * a + (c.toNat - 48)) 0

/-- `<int-part> [. <frac-part>]` with at least one digit overall. -/
def parseMantissa (cs : List Char) : Option ℚ :=
  match splitOnceBy (fun c => c = '.') cs with
  | none =>
    if cs ≠ [] ∧ cs.all (fun c => c.isDigit) then some (digitsVal cs : ℚ)
    else none
  | some (ip, fp) =>
    if (ip ≠ [] ∨ fp ≠ []) ∧ ip.all (fun c => c.isDigit)
        ∧ fp.all (fun c => c.isDigit) then
      some ((digitsVal (ip ++ fp) : ℚ) / (10 : ℚ) ^ fp.length)
    else none

/-- Optionally signed decimal exponent. -/
def parseExponent (cs : List Char) : Option ℤ :=
  match cs with
  | '+' :: r =>
    if r ≠ [] ∧ r.all (fun c => c.isDigit) then some (digitsVal r : ℤ) else none
  | '-' :: r =>
    if r ≠ [] ∧ r.all (fun c => c.isDigit) then some (-(digitsVal r : ℤ)) else none
  | r =>
    if r ≠ [] ∧ r.all (fun c => c.isDigit) then some (digitsVal r : ℤ) else none

/-- Unsigned decimal float: mantissa with optional `e`/`E` exponent. -/
def parseUnsignedFloat (cs : List Char) : Option ℚ :=
  match splitOnceBy (fun c => c = 'e' ∨ c = 'E') cs with
  | none => parseMantissa cs
  | some (m, ex) =>
    match parseMantissa m, parseExponent ex with
    | some q, some z => some (q * (10 : ℚ) ^ z)
    | _, _ => none

/-- Python's builtin `float(s)` as invoked on the stripped coordinate
components (`app.py` line 391), modelled on its finite-decimal fragment:
optional sign, decimal mantissa, optional exponent, surrounding whitespace
ignored.  (The `inf`/`nan`/underscore spellings accepted by CPython are not
modelled; no claim settled here depends on them.) -/
def pyFloat (s : List Char) : Option ℚ :=
  match stripChars s with
  | '+' :: r => parseUnsignedFloat r
  | '-' :: r => (parseUnsignedFloat r).map (fun q => -q)
  | r => parseUnsignedFloat r

/-- The literal-coordinate branch of `collect_signals_for_location`
(`app.py` lines 388-393): if the input contains a comma, take the *first two*
comma-separated fields (`split(",")[:2]`), strip each and parse with
`float`; any failure (including a missing second field) leaves
`lat = None`, i.e. `none` here. -/
def parseLatLon (s : String) : Option (ℚ × ℚ) :=
  match splitComma s.data with
  | p0 :: p1 :: _ =>
    match pyFloat (stripChars p0), pyFloat (stripChars p1) with
    | some la, some lo => some (la, lo)
    | _, _ => none
  | _ => none

/-- Modelled from the spec (§4.1), for comparison with the code's
`parseLatLon`: the spec short-circuits only inputs that parse as
`"<float>,<float>"` — exactly two comma-separated components, each a float. -/
def specFloatPair (s : String) : Option (ℚ × ℚ) :=
  match splitComma s.data with
  | [p0, p1] =>
    match pyFloat (stripChars p0), pyFloat (stripChars p1) with
    | some la, some lo => some (la, lo)
    | _, _ => none
  | _ => none

/-- Location resolution at the top of `collect_signals_for_location`
(`app.py` lines 387-398): literal coordinates short-circuit; otherwise the
geocoder (abstracted to the function `geocode`) decides. -/
def resolveCoord (geocode : String → Except String (ℚ × ℚ)) (s : String) :
    Except String (ℚ × ℚ) :=
  match parseLatLon s with
  | some p => .ok p
  | none => geocode s

/-- Python `result.get(field)` on a hazard-check result dict: `None` when the
check returned its error dict. -/
def resultGet {α β : Type} (f : α → β) : Except String α → Option β
  | .error _ => none
  | .ok a => some (f a)

/-- `quake_severity_label` (`app.py` lines 414-422): re-derives the
earthquake's report severity from the fetched maximum magnitude; `None`
(failed fetch) maps to `low`. -/
def quake_severity_label (mag : Option ℚ) : Severity :=
  match mag with
  | none => .low
  | some m => if m ≥ 6.5 then .high else if m ≥ 4.5 then .moderate else .low

/-- The `final_severities` dict (`app.py` lines 407-430): earthquake is
re-labelled from `magnitude_estimate`; each other hazard keeps its own
severity, with `None or "low"` (failed fetch) degraded to `low` (the severity
strings are never empty, so Python truthiness coincides with presence). -/
structure FinalSevs where
  earthquake : Severity
  snowfall : Severity
  hurricane : Severity
  tsunami : Severity
  wildfire : Severity
deriving DecidableEq, Repr

def final_severities (earthquake : Except String QuakeInfo)
    (snowfall : Except String SnowInfo) (hurricane : Except String HurrInfo)
    (tsunami : Except String TsuInfo) (wildfire : Except String WfInfo) :
    FinalSevs :=
  { earthquake := quake_severity_label
      (resultGet QuakeInfo.magnitude_estimate earthquake)
    snowfall := (resultGet SnowInfo.severity snowfall).getD .low
    hurricane := (resultGet HurrInfo.severity hurricane).getD .low
    tsunami := (resultGet TsuInfo.severity tsunami).getD .low
    wildfire := (resultGet WfInfo.severity wildfire).getD .low }

/-- `str.upper()` applied to the severity labels. -/
def sevUpper : Severity → String
  | .low => "LOW"
  | .moderate => "MODERATE"
  | .high => "HIGH"

/-- The tsunami-risk warning line appended to the earthquake block
(`app.py` line 452). -/
def tsunamiWarning : String :=
  "- Earthquake may generate tsunami risk — move inland to higher ground immediately if instructed."

/-- Python `", ".join(l)`. -/
def joinComma (l : List String) : String := String.intercalate ", " l

/-- `add_common_resources` (`app.py` lines 432-441), hospitals half: on a
successful lookup with a non-empty list, format the first three entries;
an error dict or empty list contributes nothing. -/
def hosp_list (hospitals : Except String (List Resource)) : List String :=
  match hospitals with
  | .error _ => []
  | .ok l =>
    if l = [] then []
    else (l.take 3).map (fun h => h.name ++ " (" ++ toString h.distance_km ++ " km)")

/-- `add_common_resources` (`app.py` lines 432-441), shelters half. -/
def shelter_list (shelters : Except String (List Resource)) : List String :=
  match shelters with
  | .error _ => []
  | .ok l =>
    if l = [] then []
    else (l.take 3).map (fun s => s.name ++ " (" ++ toString s.distance_km ++ " km)")

/-- `plan_for_disaster` (`app.py` lines 442-471): the lines appended to
`action_plan` for one hazard.  A `low` severity appends nothing; otherwise a
header, the hazard's fixed directives, the optional hospital/shelter lines,
and — for earthquake only — the tsunami-risk warning when the tsunami final
severity is `high` or `moderate`.  `flood` is never iterated by the loop at
line 472 (it has no entry in `final_severities`) and contributes nothing. -/
def plan_for_disaster (fs : FinalSevs) (hl sl : List String) :
    HazardKind → List String
  | .earthquake =>
    if fs.earthquake = .low then []
    else
      ["**EARTHQUAKE — severity: " ++ (sevUpper fs.earthquake ++ "**"),
       "- Drop, cover, and hold on. Stay away from windows and heavy furniture.",
       "- After shaking stops, move to open areas; avoid damaged structures."]
      ++ (if hl = [] then [] else ["- Nearby hospitals (top): " ++ (joinComma hl ++ ".")])
      ++ (if sl = [] then [] else ["- Nearby relief shelters (top): " ++ (joinComma sl ++ ".")])
      ++ (if fs.tsunami = .high ∨ fs.tsunami = .moderate then [tsunamiWarning] else [])
  | .snowfall =>
    if fs.snowfall = .low then []
    else
      ["**SNOWFALL — severity: " ++ (sevUpper fs.snowfall ++ "**"),
       "- Avoid travel during heavy snowfall; if must travel, carry warm clothing and emergency supplies.",
       "- Check roof loads and clear snow safely if necessary."]
      ++ (if hl = [] then [] else ["- Hospitals (in case of emergencies): " ++ (joinComma hl ++ ".")])
      ++ (if sl = [] then [] else ["- Shelters: " ++ (joinComma sl ++ ".")])
  | .hurricane =>
    if fs.hurricane = .low then []
    else
      ["**HURRICANE — severity: " ++ (sevUpper fs.hurricane ++ "**"),
       "- Secure loose outdoor items, close shutters, move to a central interior room on lowest safe floor.",
       "- Have emergency kit (water, meds, flashlight, radio)."]
      ++ (if hl = [] then [] else ["- Hospitals: " ++ (joinComma hl ++ ".")])
      ++ (if sl = [] then [] else ["- Shelters: " ++ (joinComma sl ++ ".")])
  | .tsunami =>
    if fs.tsunami = .low then []
    else
      ["**TSUNAMI — severity: " ++ (sevUpper fs.tsunami ++ "**"),
       "- If near the coast, move to higher ground immediately; follow local evacuation routes."]
      ++ (if hl = [] then [] else ["- Hospitals to consider: " ++ (joinComma hl ++ ".")])
      ++ (if sl = [] then [] else ["- Shelters: " ++ (joinComma sl ++ ".")])
  | .wildfire =>
    if fs.wildfire = .low then []
    else
      ["**WILDFIRE — severity: " ++ (sevUpper fs.wildfire ++ "**"),
       "- If smoke or fire is nearby, evacuate immediately following local authorities' instructions.",
       "- Close windows/vents; prepare to evacuate early with important documents and medications."]
      ++ (if hl = [] then [] else ["- Hospitals (for smoke/trauma): " ++ (joinComma hl ++ ".")])
      ++ (if sl = [] then [] else ["- Shelters: " ++ (joinComma sl ++ ".")])
  | .flood => []

/-- The iteration order of the `for d, sev in final_severities.items()` loop
(`app.py` line 472): Python dicts iterate in insertion order. -/
def hazardOrder : List HazardKind :=
  [.earthquake, .snowfall, .hurricane, .tsunami, .wildfire]

/-- The complete `action_plan` list built by the loop at `app.py`
lines 472-473. -/
def action_plan (fs : FinalSevs) (hl sl : List String) : List String :=
  (hazardOrder.map (plan_for_disaster fs hl sl)).flatten

/-- The external world seen by one run of `collect_signals_for_location`:
each network fetch is abstracted to the value it would produce.  Raw feeds
are given where the embedding includes the client's own post-processing
(`check_earthquake`, `check_tsunami`, `check_wildfire`); other clients are
abstracted to their results.  `tsuQuakeFeed` is the separate 300 km-radius
earthquake query issued inside `check_tsunami`, and `wfWeather` the separate
`get_weather` call issued inside `check_wildfire`. -/
structure Env where
  geocode : String → Except String (ℚ × ℚ)
  quakeFeed : Except String (List (Option ℚ))
  weather : Except String Weather
  shelters : Except String (List Resource)
  hospitals : Except String (List Resource)
  snowfall : Except String SnowInfo
  hurricane : Except String HurrInfo
  tsuQuakeFeed : Except String (List (Option ℚ))
  coastDist : Option ℚ
  wfHist : Except String WfHist
  wfWeather : Except String Weather

/-- The `combined` dict returned by `collect_signals_for_location`
(`app.py` line 474), as a record of its typed entries. -/
structure Combined where
  lat : ℚ
  lon : ℚ
  earthquake : Except String QuakeInfo
  weather : Except String Weather
  shelters : Except String (List Resource)
  hospitals : Except String (List Resource)
  snowfall : Except String SnowInfo
  hurricane : Except String HurrInfo
  tsunami : Except String TsuInfo
  wildfire : Except String WfInfo
  final_severities : FinalSevs
  action_plan : List String

/-- The key set of the `combined` dict literal at `app.py` line 474. -/
def combinedKeys : List String :=
  ["lat", "lon", "earthquake", "weather", "shelters", "hospitals",
   "snowfall", "hurricane", "tsunami", "wildfire",
   "final_severities", "action_plan"]

/-- The dict key under which each hazard kind's per-hazard result would be
stored in `combined`. -/
def hazardKey : HazardKind → String
  | .earthquake => "earthquake"
  | .snowfall => "snowfall"
  | .hurricane => "hurricane"
  | .tsunami => "tsunami"
  | .wildfire => "wildfire"
  | .flood => "flood"

/-- `collect_signals_for_location` (`app.py` lines 386-475).  Geocode failure
returns the error dict immediately; afterwards every hazard result (ok or
error) is stored, the final severities are derived, and the action plan is
generated.  `check_flood` is *not* called here — in `app.py` it is invoked
only by the Flood UI tab (line 619), outside this function. -/
def collect_signals_for_location (env : Env) (place_or_latlon : String) :
    Except String Combined :=
  match resolveCoord env.geocode place_or_latlon with
  | .error e => .error ("geocode failure: " ++ e)
  | .ok (lat, lon) =>
    let earthquake := env.quakeFeed.map check_earthquake
    let tsunami := check_tsunami (env.tsuQuakeFeed.map check_earthquake)
      env.coastDist 6.5
    let wildfire := check_wildfire env.wfHist env.wfWeather
    let fs := final_severities earthquake env.snowfall env.hurricane
      tsunami wildfire
    let hl := hosp_list env.hospitals
    let sl := shelter_list env.shelters
    .ok { lat := lat, lon := lon, earthquake := earthquake,
          weather := env.weather, shelters := env.shelters,
          hospitals := env.hospitals, snowfall := env.snowfall,
          hurricane := env.hurricane, tsunami := tsunami,
          wildfire := wildfire, final_severities := fs,
          action_plan := action_plan fs hl sl }

/-- An environment in which every fetch fails and the geocoder is down; used
to exercise the total-failure paths on concrete inputs. -/
def envAllErr : Env :=
  { geocode := fun _ => .error "geocoder unavailable"
    quakeFeed := .error "quake feed down"
    weather := .error "weather down"
    shelters := .error "overpass down"
    hospitals := .error "overpass down"
    snowfall := .error "weather down"
    hurricane := .error "weather down"
    tsuQuakeFeed := .error "quake feed down"
    coastDist := none
    wfHist := .error "archive down"
    wfWeather := .error "weather down" }

/-- `Except.isOk` as a plain function (also used as the model of "the
assessment completed rather than aborting"). -/
def exIsOk {ε α : Type} : Except ε α → Bool
  | .ok _ => true
  | .error _ => false

/-- C2 counterexample: an assessment completed from total fetch failure at the
literal coordinate "3,4" returns a unified result, yet that result has *no*
entry for the Flood hazard — `"flood"` is not among the keys of the
`combined` dict, so the claim's "exactly one entry for each of the six hazard
kinds" fails for `HazardKind.flood`. -/
theorem collect_signals_no_flood_entry :
    exIsOk (collect_signals_for_location envAllErr "3,4") = true
      ∧ hazardKey .flood ∉ combinedKeys := by
  constructor
  · have h : resolveCoord envAllErr.geocode "3,4" = .ok (3, 4) := by rfl
    simp only [collect_signals_for_location, h]
    rfl
  · decide

/-- C2 (amended): once the input resolves to a coordinate, the assessment
always completes with a unified result whose coordinate is the resolved one
— no hazard fetch failure aborts it — and that result carries exactly one
per-hazard entry for each of the *five* hazard kinds Earthquake, Snowfall,
Hurricane, Tsunami and Wildfire (Flood is computed separately by the UI and
has no entry in the unified result). -/
theorem collect_signals_total_on_resolve (env : Env) (s : String) (p : ℚ × ℚ)
    (hres : resolveCoord env.geocode s = .ok p) :
    ∃ c : Combined, collect_signals_for_location env s = .ok c
      ∧ c.lat = p.1 ∧ c.lon = p.2
      ∧ (∀ k : HazardKind, k ≠ .flood → hazardKey k ∈ combinedKeys) := by
  obtain ⟨la, lo⟩ := p
  simp only [collect_signals_for_location, hres]
  refine ⟨_, rfl, rfl, rfl, ?_⟩
  intro k hk
  cases k
  case flood => exact absurd rfl hk
  all_goals decide

/-- Concrete instance of `collect_signals_total_on_resolve`: with every fetch
failing, the assessment of the literal coordinate "5,6" still completes. -/
theorem collect_signals_total_on_resolve_witness :
    exIsOk (collect_signals_for_location envAllErr "5,6") = true := by
  obtain ⟨c, hc, -⟩ := collect_signals_total_on_resolve envAllErr "5,6" (5, 6)
    (by rfl)
  rw [hc]
  rfl

/-- C3: the aggregator re-derives Earthquake's final severity from the fetched
maximum magnitude via the table (`< 4.5 → low`, `[4.5, 6.5) → moderate`,
`≥ 6.5 → high`) — it does not reuse any client-reported label — and every
hazard whose fetch failed gets final severity `low` (missing data never
escalates). -/
theorem final_severities_table (eqr : Except String QuakeInfo)
    (sn : Except String SnowInfo) (hu : Except String HurrInfo)
    (ts : Except String TsuInfo) (wf : Except String WfInfo) :
    (∀ q : QuakeInfo, eqr = .ok q →
        (final_severities eqr sn hu ts wf).earthquake
          = (if q.magnitude_estimate < 4.5 then .low
             else if q.magnitude_estimate < 6.5 then .moderate else .high))
      ∧ (∀ e, eqr = .error e → (final_severities eqr sn hu ts wf).earthquake = .low)
      ∧ (∀ e, sn = .error e → (final_severities eqr sn hu ts wf).snowfall = .low)
      ∧ (∀ e, hu = .error e → (final_severities eqr sn hu ts wf).hurricane = .low)
      ∧ (∀ e, ts = .error e → (final_severities eqr sn hu ts wf).tsunami = .low)
      ∧ (∀ e, wf = .error e → (final_severities eqr sn hu ts wf).wildfire = .low) := by
  refine ⟨?_, ?_, ?_, ?_, ?_, ?_⟩
  · rintro q rfl
    simp only [final_severities, resultGet, quake_severity_label, ge_iff_le]
    rcases lt_or_le q.magnitude_estimate 4.5 with h45 | h45
    · rw [if_pos h45, if_neg (by linarith), if_neg (by linarith)]
    · rcases lt_or_le q.magnitude_estimate 6.5 with h65 | h65
      · rw [if_neg (not_lt.mpr h45), if_pos h65, if_neg (not_le.mpr h65), if_pos h45]
      · rw [if_neg (not_lt.mpr h45), if_neg (not_lt.mpr h65), if_pos h65]
  · rintro e rfl; rfl
  · rintro e rfl
    simp [final_severities, resultGet]
  · rintro e rfl
    simp [final_severities, resultGet]
  · rintro e rfl
    simp [final_severities, resultGet]
  · rintro e rfl
    simp [final_severities, resultGet]

/-- Concrete instance of `final_severities_table`: a fetched maximum magnitude
of 6.6 is re-labelled `high`, and four failed fetches all land at `low`. -/
theorem final_severities_table_witness :
    (final_severities (.ok { possible := true, magnitude_estimate := 6.6, count := 1 })
        (.error "a") (.error "b") (.error "c") (.error "d")).earthquake = .high
      ∧ (final_severities (.ok { possible := true, magnitude_estimate := 6.6, count := 1 })
          (.error "a") (.error "b") (.error "c") (.error "d")).snowfall = .low
      ∧ (final_severities (.ok { possible := true, magnitude_estimate := 6.6, count := 1 })
          (.error "a") (.error "b") (.error "c") (.error "d")).tsunami = .low := by
  obtain ⟨h1, -, h3, -, h5, -⟩ := final_severities_table
    (.ok { possible := true, magnitude_estimate := 6.6, count := 1 })
    (.error "a") (.error "b") (.error "c") (.error "d")
  refine ⟨?_, h3 "a" rfl, h5 "c" rfl⟩
  rw [h1 _ rfl]
  norm_num

/-- C6: the action plan appends no block for a hazard whose final severity is
`low` (hence it is empty when every hazard is `low`), and each block
references at most 3 hospitals and at most 3 shelters — `hosp_list` and
`shelter_list`, the only resource lists any block interpolates, never exceed
three entries. -/
theorem action_plan_omits_low (fs : FinalSevs)
    (hospitals shelters : Except String (List Resource)) :
    (fs.earthquake = .low →
        plan_for_disaster fs (hosp_list hospitals) (shelter_list shelters) .earthquake = [])
      ∧ (fs.snowfall = .low →
          plan_for_disaster fs (hosp_list hospitals) (shelter_list shelters) .snowfall = [])
      ∧ (fs.hurricane = .low →
          plan_for_disaster fs (hosp_list hospitals) (shelter_list shelters) .hurricane = [])
      ∧ (fs.tsunami = .low →
          plan_for_disaster fs (hosp_list hospitals) (shelter_list shelters) .tsunami = [])
      ∧ (fs.wildfire = .low →
          plan_for_disaster fs (hosp_list hospitals) (shelter_list shelters) .wildfire = [])
      ∧ (fs.earthquake = .low ∧ fs.snowfall = .low ∧ fs.hurricane = .low
            ∧ fs.tsunami = .low ∧ fs.wildfire = .low →
          action_plan fs (hosp_list hospitals) (shelter_list shelters) = [])
      ∧ (hosp_list hospitals).length ≤ 3
      ∧ (shelter_list shelters).length ≤ 3 := by
  have hlen : ∀ r : Except String (List Resource), ∀ f : Resource → String,
      (match r with
        | .error _ => []
        | .ok l => if l = [] then [] else (l.take 3).map f).length ≤ 3 := by
    intro r f
    rcases r with e | l
    · simp
    · by_cases h : l = []
      · simp [h]
      · simp only [if_neg h, List.length_map]
        rw [List.length_take]
        exact min_le_left 3 l.length
  refine ⟨fun h => by simp [plan_for_disaster, h],
    fun h => by simp [plan_for_disaster, h],
    fun h => by simp [plan_for_disaster, h],
    fun h => by simp [plan_for_disaster, h],
    fun h => by simp [plan_for_disaster, h],
    ?_, hlen hospitals _, hlen shelters _⟩
  rintro ⟨h1, h2, h3, h4, h5⟩
  simp [action_plan, hazardOrder, plan_for_disaster, h1, h2, h3, h4, h5]

/-- Concrete instance of `action_plan_omits_low`: with every final severity
`low` and both resource lookups failed, the action plan is empty. -/
theorem action_plan_omits_low_witness :
    action_plan { earthquake := .low, snowfall := .low, hurricane := .low,
                  tsunami := .low, wildfire := .low }
        (hosp_list (.error "overpass down")) (shelter_list (.error "overpass down"))
      = [] :=
  (action_plan_omits_low
      { earthquake := .low, snowfall := .low, hurricane := .low,
        tsunami := .low, wildfire := .low }
      (.error "overpass down") (.error "overpass down")).2.2.2.2.2.1
    ⟨rfl, rfl, rfl, rfl, rfl⟩

theorem append_ne_of_not_data_prefix (a x w : String)
    (h : ¬ (a.data <+: w.data)) : a ++ x ≠ w := by
  intro he
  exact h ⟨x.data, by rw [← String.data_append, he]⟩

/-- C7: whenever the Earthquake block is emitted (final earthquake severity
not `low`), the tsunami-risk warning line appears in that block exactly when
the Tsunami final severity is `moderate` or `high` — for every possible pair
of hospital/shelter reference lists. -/
theorem quake_block_warns_iff_tsunami (fs : FinalSevs) (hl sl : List String)
    (hq : fs.earthquake ≠ .low) :
    tsunamiWarning ∈ plan_for_disaster fs hl sl .earthquake
      ↔ (fs.tsunami = .moderate ∨ fs.tsunami = .high) := by
  simp only [plan_for_disaster, if_neg hq]
  by_cases hts : fs.tsunami = .high ∨ fs.tsunami = .moderate
  · rw [if_pos hts]
    exact iff_of_true (by simp) (hts.elim Or.inr Or.inl)
  · rw [if_neg hts]
    refine iff_of_false ?_ (fun h => hts (h.elim Or.inr Or.inl))
    intro hmem
    simp only [List.append_nil, List.mem_append, List.mem_cons,
      List.not_mem_nil, or_false] at hmem
    rcases hmem with ((h | h | h) | h) | h
    · exact append_ne_of_not_data_prefix _ _ _ (by decide) h.symm
    · exact absurd h (by decide)
    · exact absurd h (by decide)
    · by_cases hhl : hl = []
      · rw [if_pos hhl] at h
        exact absurd h (List.not_mem_nil _)
      · rw [if_neg hhl] at h
        simp only [List.mem_singleton] at h
        exact append_ne_of_not_data_prefix _ _ _ (by decide) h.symm
    · by_cases hsl : sl = []
      · rw [if_pos hsl] at h
        exact absurd h (List.not_mem_nil _)
      · rw [if_neg hsl] at h
        simp only [List.mem_singleton] at h
        exact append_ne_of_not_data_prefix _ _ _ (by decide) h.symm

/-- Concrete instance of `quake_block_warns_iff_tsunami`: earthquake `high`,
tsunami `moderate`, no nearby resources — the warning line is in the block. -/
theorem quake_block_warns_iff_tsunami_witness :
    tsunamiWarning ∈ plan_for_disaster
        { earthquake := .high, snowfall := .low, hurricane := .low,
          tsunami := .moderate, wildfire := .low } [] [] .earthquake :=
  (quake_block_warns_iff_tsunami
      { earthquake := .high, snowfall := .low, hurricane := .low,
        tsunami := .moderate, wildfire := .low } [] []
      (by decide)).mpr (Or.inl rfl)

/-- C8 counterexample: the input `"1,2,3"` does not parse as
`"<float>,<float>"` (it has three components), so per the claim it should be
delegated to the geocoder and its failure should make the assessment return
an error — yet with the geocoder down the code still resolves it to `(1, 2)`
(only the first two comma-separated fields are consulted) and the assessment
completes. -/
theorem resolve_extra_fields_not_delegated :
    specFloatPair "1,2,3" = none
      ∧ resolveCoord envAllErr.geocode "1,2,3" = .ok (1, 2)
      ∧ exIsOk (collect_signals_for_location envAllErr "1,2,3") = true := by
  refine ⟨by decide, by rfl, ?_⟩
  have h : resolveCoord envAllErr.geocode "1,2,3" = .ok (1, 2) := by rfl
  simp only [collect_signals_for_location, h]
  rfl

/-- C8 (amended): if the input contains a comma and its first two
comma-separated fields both parse as floats, the assessment short-circuits to
exactly that coordinate pair, independent of the geocoder (extra fields are
ignored); any other input is delegated to the geocoder, and a geocoding
failure makes the whole assessment return the geocode error — nothing else
runs. -/
theorem resolve_literal_short_circuit (s : String)
    (g g' : String → Except String (ℚ × ℚ)) (env : Env) (e : String)
    (p : ℚ × ℚ) :
    (parseLatLon s = some p →
        resolveCoord g s = .ok p ∧ resolveCoord g s = resolveCoord g' s)
      ∧ (parseLatLon s = none → resolveCoord g s = g s)
      ∧ (resolveCoord env.geocode s = .error e →
          collect_signals_for_location env s
            = .error ("geocode failure: " ++ e)) := by
  refine ⟨fun h => ?_, fun h => ?_, fun h => ?_⟩
  · constructor
    · simp only [resolveCoord, h]
    · simp only [resolveCoord, h]
  · simp only [resolveCoord, h]
  · simp only [collect_signals_for_location, h]

/-- Concrete instance of `resolve_literal_short_circuit`: `" 7 , 8 "`
short-circuits to `(7, 8)` with the geocoder down. -/
theorem resolve_literal_short_circuit_witness :
    resolveCoord envAllErr.geocode " 7 , 8 " = .ok (7, 8) :=
  ((resolve_literal_short_circuit " 7 , 8 " envAllErr.geocode
      envAllErr.geocode envAllErr "" (7, 8)).1 (by rfl)).1
